import Mathlib

/-!
Verification of the dalevision edge agent against its specification.

The Python source is shallowly embedded: Python dicts become association
lists, floats become rationals (all timestamps and metric values involved
are exactly representable), mutation becomes explicit state passing.
Definitions follow the source files `src/vision/aggregations.py`,
`src/camera/rtsp.py`, `src/events/receipts.py`, `src/storage/sqlite_queue.py`,
`src/transport/api_client.py`, `src/agent/lifecycle.py` and
`dalevision_edge_agent/cameras.py`.
-/

set_option autoImplicit false

unseal Rat.add Rat.mul Rat.sub Rat.inv

namespace EdgeAgent

/-! ## Association-list model of Python dicts -/

/-- Lookup of a key in an insertion-ordered association list (Python `d.get(k)`). -/
def dictGet {κ α : Type} [DecidableEq κ] (l : List (κ × α)) (k : κ) : Option α :=
  match l with
  | [] => none
  | (k2, v) :: rest => if k2 = k then some v else dictGet rest k

/-- Lookup with default (Python `d.get(k, dflt)`). -/
def dictGetD {κ α : Type} [DecidableEq κ] (l : List (κ × α)) (k : κ) (dflt : α) : α :=
  (dictGet l k).getD dflt

/-- Python `d[k] = v`: replace in place if the key exists, else append. -/
def dictSet {κ α : Type} [DecidableEq κ] (l : List (κ × α)) (k : κ) (v : α) :
    List (κ × α) :=
  match l with
  | [] => [(k, v)]
  | (k2, v2) :: rest =>
      if k2 = k then (k2, v) :: rest else (k2, v2) :: dictSet rest k v

/-- Remove a key (used to state what an aggregator add discards). -/
def dictErase {κ α : Type} [DecidableEq κ] (l : List (κ × α)) (k : κ) :
    List (κ × α) :=
  match l with
  | [] => []
  | (k2, v2) :: rest =>
      if k2 = k then dictErase rest k else (k2, v2) :: dictErase rest k

theorem dictGet_dictSet {κ α : Type} [DecidableEq κ] (l : List (κ × α)) (k c : κ) (v : α) :
    dictGet (dictSet l k v) c = if k = c then some v else dictGet l c := by
  induction l with
  | nil =>
      by_cases h : k = c <;> simp [dictSet, dictGet, h]
  | cons hd tl ih =>
      obtain ⟨k2, v2⟩ := hd
      by_cases h2 : k2 = k
      · subst h2
        by_cases h : k2 = c <;> simp [dictSet, dictGet, h]
      · by_cases h : k2 = c
        · subst h
          have hkc : ¬ k = k2 := fun he => h2 he.symm
          simp [dictSet, dictGet, h2, hkc]
        · simp [dictSet, dictGet, h2, h, ih]

theorem dictGet_dictErase {κ α : Type} [DecidableEq κ] (l : List (κ × α)) (k c : κ) :
    dictGet (dictErase l k) c = if k = c then none else dictGet l c := by
  induction l with
  | nil => simp [dictErase, dictGet]
  | cons hd tl ih =>
      obtain ⟨k2, v2⟩ := hd
      by_cases h2 : k2 = k
      · subst h2
        by_cases h : k2 = c
        · subst h
          simpa [dictErase, dictGet] using ih
        · have hkc : ¬ k2 = c := h
          simp [dictErase, dictGet, hkc, ih]
      · by_cases h : k2 = c
        · subst h
          have hkc : ¬ k = k2 := fun he => h2 he.symm
          simp [dictErase, dictGet, h2, hkc]
        · simp [dictErase, dictGet, h2, h, ih]

/-! ## Python runtime values appearing in metric dicts -/

/-- A Python value as it appears in a metrics dict: the aggregator coerces
`bool` to `0/1` and aggregates `int`/`float`; everything else is ignored. -/
inductive PyVal where
  | pbool (b : Bool)
  | pint (n : Int)
  | pfloat (q : ℚ)
  | pnone
  | pstr (s : String)
  deriving DecidableEq

/-- The numeric reading the aggregator applies: `bool` coerced to `0/1`,
`int` and `float` read as float, other values rejected
(`aggregations.py` lines 46-52). -/
def PyVal.asNum : PyVal → Option ℚ
  | .pbool b => some (if b then 1 else 0)
  | .pint n => some (n : ℚ)
  | .pfloat q => some q
  | _ => none

/-- A metrics dict (`Dict[str, Any]`). -/
abbrev Metrics : Type := List (String × PyVal)

/-! ## Metric bucket aggregator (`src/vision/aggregations.py`) -/

/-- The `_Bucket` dataclass: open accumulation bucket of one camera. -/
structure Bucket where
  ts_bucket : Int
  count : Nat
  sums : List (String × ℚ)
  maxs : List (String × ℚ)
  deriving DecidableEq

/-- A closed bucket as returned by `try_close_bucket`. -/
structure ClosedBucket where
  ts_bucket : Int
  count : Nat
  metrics : List (String × ℚ)
  deriving DecidableEq

/-- Aggregator state: the `_buckets` dict, camera id to open bucket. -/
abbrev AggState : Type := List (String × Bucket)

/-- Embedding of `MetricAggregator._bucket_start`:
`int(floor(ts / bucket_seconds) * bucket_seconds)`. -/
def bucket_start (bucket_seconds : Int) (ts : ℚ) : Int :=
  ⌊ts / (bucket_seconds : ℚ)⌋ * bucket_seconds

/-- One `(k, v)` iteration of the aggregation loop in `add_sample`
(`aggregations.py` lines 46-52). -/
def aggregateField (b : Bucket) (kv : String × PyVal) : Bucket :=
  match kv.2.asNum with
  | none => b
  | some fv =>
      { b with
        sums := dictSet b.sums kv.1 (dictGetD b.sums kv.1 0 + fv)
        maxs :=
          match dictGet b.maxs kv.1 with
          | none => dictSet b.maxs kv.1 fv
          | some m => dictSet b.maxs kv.1 (max m fv) }

/-- The fresh bucket opened by `add_sample` / `try_close_bucket`. -/
def emptyBucket (bstart : Int) : Bucket :=
  { ts_bucket := bstart, count := 0, sums := [], maxs := [] }

/-- Embedding of `MetricAggregator.add_sample` (`aggregations.py` lines 31-52):
pick the bucket of the camera, replace it by a fresh one when absent or when
the bucket start of the sample differs, bump the count and aggregate the
numeric fields. -/
def add_sample (bucket_seconds : Int) (s : AggState) (camera_id : String)
    (ts : ℚ) (metrics : Metrics) : AggState :=
  let bstart := bucket_start bucket_seconds ts
  let b0 :=
    match dictGet s camera_id with
    | none => emptyBucket bstart
    | some b => if b.ts_bucket ≠ bstart then emptyBucket bstart else b
  let b1 := { b0 with count := b0.count + 1 }
  let b2 := metrics.foldl aggregateField b1
  dictSet s camera_id b2

/-- Summary built when a bucket closes (`aggregations.py` lines 71-83):
`k_avg = sums[k] / max 1 count` for every summed key, then `k_max = maxs[k]`. -/
def closeBucket (b : Bucket) : ClosedBucket :=
  let denom : ℚ := (max 1 b.count : Nat)
  { ts_bucket := b.ts_bucket
    count := b.count
    metrics :=
      b.sums.map (fun kv => (kv.1 ++ "_avg", kv.2 / denom)) ++
      b.maxs.map (fun kv => (kv.1 ++ "_max", kv.2)) }

/-- Embedding of `MetricAggregator.try_close_bucket` (`aggregations.py` lines
54-83): returns `none` when the camera has no bucket or the timestamp still
maps to the start of the open bucket; otherwise closes the bucket, opens a
fresh one for the current start and returns the summary. -/
def try_close_bucket (bucket_seconds : Int) (s : AggState) (camera_id : String)
    (ts : ℚ) : Option ClosedBucket × AggState :=
  match dictGet s camera_id with
  | none => (none, s)
  | some b =>
      let current_start := bucket_start bucket_seconds ts
      if current_start = b.ts_bucket then
        (none, s)
      else
        (some (closeBucket b), dictSet s camera_id (emptyBucket current_start))

/-- One aggregation step of the main pipeline (`lifecycle.py` lines 299-305):
`add_sample` followed by `try_close_bucket` at the same timestamp. -/
def pipelineStep (bucket_seconds : Int) (s : AggState) (camera_id : String)
    (ts : ℚ) (metrics : Metrics) : Option ClosedBucket × AggState :=
  let s2 := add_sample bucket_seconds s camera_id ts metrics
  try_close_bucket bucket_seconds s2 camera_id ts

/-- Run the pipeline over a list of `(ts, metrics)` frames of one camera,
collecting every closed bucket it emits. -/
def pipelineRun (bucket_seconds : Int) (s : AggState) (camera_id : String) :
    List (ℚ × Metrics) → List ClosedBucket × AggState
  | [] => ([], s)
  | (ts, m) :: rest =>
      match pipelineStep bucket_seconds s camera_id ts m with
      | (out, s2) =>
          match pipelineRun bucket_seconds s2 camera_id rest with
          | (outs, s3) => (out.toList ++ outs, s3)

/-- An aggregator operation, for stating what later calls can observe. -/
inductive AggOp where
  | add (camera_id : String) (ts : ℚ) (metrics : Metrics)
  | close (camera_id : String) (ts : ℚ)

/-- Run a list of aggregator operations, collecting the result of every
`try_close_bucket` call. -/
def runOps (bucket_seconds : Int) (s : AggState) :
    List AggOp → List (Option ClosedBucket) × AggState
  | [] => ([], s)
  | .add c ts m :: rest =>
      runOps bucket_seconds (add_sample bucket_seconds s c ts m) rest
  | .close c ts :: rest =>
      match try_close_bucket bucket_seconds s c ts with
      | (out, s2) =>
          match runOps bucket_seconds s2 rest with
          | (outs, s3) => (out :: outs, s3)

/-! ## Geometry primitives (`src/camera/rtsp.py` lines 19-34) -/

/-- Python `int(...)` applied to a float: truncation toward zero. -/
def pyTrunc (q : ℚ) : Int :=
  if q < 0 then ⌈q⌉ else ⌊q⌋

/-- Whether the horizontal ray from `(qx, qy)` toward `+x` crosses the edge
from `a` to `b` (one edge of the even-odd crossing test). -/
def rayCrossesEdge (qx qy : ℚ) (a b : Int × Int) : Bool :=
  let ax : ℚ := a.1
  let ay : ℚ := a.2
  let bx : ℚ := b.1
  let cy : ℚ := b.2
  (decide (ay > qy) != decide (cy > qy)) &&
    decide (qx < (bx - ax) * (qy - ay) / (cy - ay) + ax)

/-- Modelled from the spec: `_point_in_polygon` (`rtsp.py` lines 19-26)
delegates the containment test to `cv2.pointPolygonTest`, whose code is
external to this repository; per spec §4.1 it is "a standard point-in-polygon
test; polygon with fewer than 3 points is defined to contain nothing". Embedded
as the standard even-odd ray-crossing test on the edge cycle of the polygon. -/
def point_in_polygon (qx qy : ℚ) (polygon : List (Int × Int)) : Bool :=
  if polygon.length < 3 then false
  else
    match polygon with
    | [] => false
    | p0 :: _ =>
        let edges := polygon.zip (polygon.drop 1 ++ [p0])
        (edges.countP (fun e => rayCrossesEdge qx qy e.1 e.2)) % 2 = 1

/-- Embedding of `_line_side` (`rtsp.py` lines 29-34): signed cross product of `p2 - p1`
with `p - p1`. -/
def line_side (p1 p2 p : Int × Int) : Int :=
  (p2.1 - p1.1) * (p.2 - p1.2) - (p2.2 - p1.2) * (p.1 - p1.1)

/-! ## ROI classifier (`src/camera/rtsp.py`) -/

/-- One detection handed to `update_metrics`: an optional `xyxy` box and an
optional track id. -/
structure Detection where
  xyxy : Option (List ℚ) := none
  track_id : Option Int := none
  deriving DecidableEq

/-- The per-detection skip test (`rtsp.py` line 268):
`if not xyxy or len(xyxy) != 4: continue`. -/
def usableBox : Option (List ℚ) → Bool
  | none => false
  | some l => !l.isEmpty && l.length == 4

/-- The immutable per-camera configuration a worker loads from its ROI file
(`rtsp.py` lines 61-107): explicit role, zone polygons, normalized lines and
tunable parameters (defaults as in the source). -/
structure Worker where
  roiRole : Option String := none
  zones : List (String × List (Int × Int)) := []
  roiLines : List (String × ((Int × Int) × (Int × Int))) := []
  exclude_pay_from_queue : Bool := true
  checkout_dwell_s : ℚ := 2
  checkout_failsafe_s : ℚ := 4
  line_cooldown_s : ℚ := 4

/-- Embedding of `_infer_role` (`rtsp.py` lines 201-216). -/
def infer_role (w : Worker) : String :=
  let fromRoi :=
    if (dictGet w.zones "ponto_pagamento").isSome ∨
        (dictGet w.zones "area_atendimento_fila").isSome ∨
        (dictGet w.zones "zona_funcionario_caixa").isSome then "balcao"
    else if (dictGet w.zones "area_consumo").isSome then "salao"
    else if w.roiLines ≠ [] then "entrada"
    else "unknown"
  match w.roiRole with
  | some r => if r = "balcao" ∨ r = "salao" ∨ r = "entrada" then r else fromRoi
  | none => fromRoi

/-- The mutable `_roi_state` dict (`rtsp.py` lines 73-88). -/
structure RoiState where
  in_checkout_cycle : Bool := false
  interaction_start_ts : Option ℚ := none
  last_checkout_ts : ℚ := -(1000000000 : ℚ)
  track_line_side_state : List (Int × List (String × Int)) := []
  track_line_last_event : List (Int × List ((String × String) × ℚ)) := []
  debug_clients_at_pay : Nat := 0
  debug_staff_at_cashier : Nat := 0
  deriving DecidableEq

/-- Accumulator of the detection loop of `update_metrics`
(`rtsp.py` lines 242-254 plus the two per-track maps). -/
structure FrameAcc where
  queue_count : Nat := 0
  pay_count : Nat := 0
  staff_count : Nat := 0
  consumo_count : Nat := 0
  clients_at_pay : Nat := 0
  staff_at_cashier : Nat := 0
  entries_inc : Nat := 0
  exits_inc : Nat := 0
  tls : List (Int × List (String × Int)) := []
  tll : List (Int × List ((String × String) × ℚ)) := []
  deriving DecidableEq

/-- One line of the `for ln, (p1, p2) in lines.items()` loop
(`rtsp.py` lines 319-341): compute the side, fire an entry/exit candidate
under the per-`(type, line)` cooldown, and always record the side. -/
def lineStep (cooldown ts : ℚ) (pt : Int × Int)
    (st : Nat × Nat × List (String × Int) × List ((String × String) × ℚ))
    (lnEntry : String × ((Int × Int) × (Int × Int))) :
    Nat × Nat × List (String × Int) × List ((String × String) × ℚ) :=
  let ln := lnEntry.1
  let p1 := lnEntry.2.1
  let p2 := lnEntry.2.2
  let entries := st.1
  let exits := st.2.1
  let tsd := st.2.2.1
  let ted := st.2.2.2
  let side := line_side p1 p2 pt
  match dictGet tsd ln with
  | none => (entries, exits, dictSet tsd ln side, ted)
  | some prev =>
      if prev < 0 ∧ side > 0 then
        let last_t := dictGetD ted ("entry", ln) (-(1000000000 : ℚ))
        if ts - last_t ≥ cooldown then
          (entries + 1, exits, dictSet tsd ln side, dictSet ted ("entry", ln) ts)
        else
          (entries, exits, dictSet tsd ln side, ted)
      else if prev > 0 ∧ side < 0 then
        let last_t := dictGetD ted ("exit", ln) (-(1000000000 : ℚ))
        if ts - last_t ≥ cooldown then
          (entries, exits + 1, dictSet tsd ln side, dictSet ted ("exit", ln) ts)
        else
          (entries, exits, dictSet tsd ln side, ted)
      else
        (entries, exits, dictSet tsd ln side, ted)

/-- One iteration of the detection loop of `update_metrics`
(`rtsp.py` lines 257-341). -/
def processDet (w : Worker) (role : String) (ts : ℚ) (acc : FrameAcc)
    (det : Detection) : FrameAcc :=
  match det.xyxy with
  | some [x1, y1, x2, y2] =>
            let cx := (x1 + x2) / 2
            let foot_y := y2
            let center_y := (y1 + y2) / 2
            if role = "balcao" then
              let in_pay :=
                match dictGet w.zones "ponto_pagamento" with
                | some poly => point_in_polygon cx center_y poly
                | none => false
              let acc1 :=
                if in_pay = true then
                  { acc with
                    clients_at_pay := acc.clients_at_pay + 1
                    pay_count := acc.pay_count + 1 }
                else acc
              let acc2 :=
                match dictGet w.zones "zona_funcionario_caixa" with
                | some poly =>
                    if point_in_polygon cx center_y poly then
                      { acc1 with
                        staff_at_cashier := acc1.staff_at_cashier + 1
                        staff_count := acc1.staff_count + 1 }
                    else acc1
                | none => acc1
              match dictGet w.zones "area_atendimento_fila" with
              | some poly =>
                  let in_queue := point_in_polygon cx foot_y poly
                  if in_queue then
                    if w.exclude_pay_from_queue && in_pay then acc2
                    else { acc2 with queue_count := acc2.queue_count + 1 }
                  else acc2
              | none => acc2
            else if role = "salao" then
              match dictGet w.zones "area_consumo" with
              | some poly =>
                  if point_in_polygon cx foot_y poly then
                    { acc with consumo_count := acc.consumo_count + 1 }
                  else acc
              | none => acc
            else if role = "entrada" then
              match det.track_id with
              | none => acc
              | some tid =>
                  if w.roiLines = [] then acc
                  else
                    let tsd0 := dictGetD acc.tls tid []
                    let ted0 := dictGetD acc.tll tid []
                    let res := w.roiLines.foldl
                      (lineStep w.line_cooldown_s ts (pyTrunc cx, pyTrunc foot_y))
                      (acc.entries_inc, acc.exits_inc, tsd0, ted0)
                    { acc with
                      entries_inc := res.1
                      exits_inc := res.2.1
                      tls := dictSet acc.tls tid res.2.2.1
                      tll := dictSet acc.tll tid res.2.2.2 }
            else acc
  | _ => acc

/-- The checkout finite-state machine (`rtsp.py` lines 350-378), acting on the
three checkout fields of the state; returns the `checkout_events` increment. -/
def checkoutStep (dwell failsafe : ℚ) (st : RoiState) (interaction_now : Bool)
    (ts : ℚ) : Nat × RoiState :=
  if failsafe > 0 ∧ ts - st.last_checkout_ts < failsafe then
    (0, { st with interaction_start_ts := none })
  else if ¬ st.in_checkout_cycle then
    if interaction_now then
      match st.interaction_start_ts with
      | none => (0, { st with interaction_start_ts := some ts })
      | some t0 =>
          if ts - t0 ≥ dwell then
            (1, { st with
                  in_checkout_cycle := true
                  last_checkout_ts := ts
                  interaction_start_ts := none })
          else (0, st)
    else (0, { st with interaction_start_ts := none })
  else
    if ¬ interaction_now then
      (0, { st with in_checkout_cycle := false, interaction_start_ts := none })
    else (0, st)

/-- The metrics snapshot returned by `update_metrics`
(`rtsp.py` lines 380-399). -/
structure Snapshot where
  people_count : Nat
  queue_count : Nat
  pay_count : Nat
  staff_count : Nat
  checkout_events : Nat
  consumo_count : Nat
  entries : Nat
  exits : Nat
  debug_clients_at_pay : Nat
  debug_staff_at_cashier : Nat
  deriving DecidableEq

/-- Embedding of `RtspCameraWorker.update_metrics` (`rtsp.py` lines 218-399):
classify the
detections by role, run the checkout state machine for `balcao`, and return
the snapshot plus the updated mutable state. -/
def update_metrics (w : Worker) (st : RoiState) (detections : List Detection)
    (ts : ℚ) : Snapshot × RoiState :=
  let role := infer_role w
  let acc0 : FrameAcc :=
    { tls := st.track_line_side_state, tll := st.track_line_last_event }
  let acc := detections.foldl (processDet w role ts) acc0
  let stMaps :=
    { st with
      track_line_side_state := acc.tls
      track_line_last_event := acc.tll }
  let stepped :=
    if role = "balcao" then
      let stDebug :=
        { stMaps with
          debug_clients_at_pay := acc.clients_at_pay
          debug_staff_at_cashier := acc.staff_at_cashier }
      let interaction_now := acc.clients_at_pay ≥ 1 ∧ acc.staff_at_cashier ≥ 1
      checkoutStep w.checkout_dwell_s w.checkout_failsafe_s stDebug
        interaction_now ts
    else (0, stMaps)
  let st2 := stepped.2
  ({ people_count := detections.length
     queue_count := acc.queue_count
     pay_count := acc.pay_count
     staff_count := acc.staff_count
     checkout_events := stepped.1
     consumo_count := acc.consumo_count
     entries := acc.entries_inc
     exits := acc.exits_inc
     debug_clients_at_pay := st2.debug_clients_at_pay
     debug_staff_at_cashier := st2.debug_staff_at_cashier }, st2)

/-- Feed a list of `(detections, ts)` frames through `update_metrics`,
collecting the snapshots. -/
def runFrames (w : Worker) (st : RoiState) :
    List (List Detection × ℚ) → List Snapshot × RoiState
  | [] => ([], st)
  | (dets, ts) :: rest =>
      let step := update_metrics w st dets ts
      let next := runFrames w step.2 rest
      (step.1 :: next.1, next.2)

/-! ## Event envelopes and receipt ids (`src/events/receipts.py`) -/

/-- A JSON value (the fragment the envelopes use: null, booleans, integers,
strings and objects). -/
inductive JVal where
  | null
  | jbool (b : Bool)
  | jint (n : Int)
  | jstr (s : String)
  | jobj (fields : List (String × JVal))

mutual

/-- Structural equality of JSON values (the comparison the `UNIQUE` column
applies to two stored receipt ids). -/
def JVal.beq : JVal → JVal → Bool
  | .null, .null => true
  | .jbool x, .jbool y => x == y
  | .jint x, .jint y => x == y
  | .jstr x, .jstr y => x == y
  | .jobj xs, .jobj ys => JVal.beqFields xs ys
  | _, _ => false

/-- Structural equality of object field lists. -/
def JVal.beqFields : List (String × JVal) → List (String × JVal) → Bool
  | [], [] => true
  | (k1, v1) :: r1, (k2, v2) :: r2 =>
      k1 == k2 && JVal.beq v1 v2 && JVal.beqFields r1 r2
  | _, _ => false

end

mutual

theorem JVal.beq_refl : (a : JVal) → JVal.beq a a = true
  | .null => rfl
  | .jbool b => by simp [JVal.beq]
  | .jint n => by simp [JVal.beq]
  | .jstr s => by simp [JVal.beq]
  | .jobj fs => by simpa [JVal.beq] using JVal.beqFields_refl fs

theorem JVal.beqFields_refl :
    (xs : List (String × JVal)) → JVal.beqFields xs xs = true
  | [] => rfl
  | (k, v) :: rest => by
      simp [JVal.beqFields, JVal.beq_refl v, JVal.beqFields_refl rest]

end

/-- Whether a JSON value is `null` (a SQL `NULL` in the `receipt_id` column). -/
def JVal.isNull : JVal → Bool
  | .null => true
  | _ => false

/-- Python `payload.get(k)` on a dict: `None` (modelled as `null`) when the
key is absent. -/
def JVal.pyGet (v : JVal) (k : String) : JVal :=
  match v with
  | .jobj fields => (dictGet fields k).getD .null
  | _ => .null

/-- Python `payload.get(k, dflt)`. -/
def JVal.pyGetD (v : JVal) (k : String) (dflt : JVal) : JVal :=
  match v with
  | .jobj fields => (dictGet fields k).getD dflt
  | _ => dflt

/-- Python `payload[k]` on a dict: `none` models the `KeyError` path. -/
def JVal.pyIndex (v : JVal) (k : String) : Option JVal :=
  match v with
  | .jobj fields => dictGet fields k
  | _ => none

/-- Python `payload[k] = x` on a dict. -/
def JVal.pySet (v : JVal) (k : String) (x : JVal) : JVal :=
  match v with
  | .jobj fields => .jobj (dictSet fields k x)
  | other => other

mutual

/-- Canonical JSON text of a value, modelling the external `json.dumps`
(keys are emitted in the order stored; `compute_receipt_id` feeds it an
object whose keys are already in the sorted order `sort_keys=True` uses). -/
def jsonDumps : JVal → String
  | .null => "null"
  | .jbool b => if b then "true" else "false"
  | .jint n => toString n
  | .jstr s => "\"" ++ s ++ "\""
  | .jobj fields => "\x7b" ++ jsonDumpsFields fields ++ "\x7d"

/-- Comma-separated `"key": value` items of an object. -/
def jsonDumpsFields : List (String × JVal) → String
  | [] => ""
  | [(k, v)] => "\"" ++ k ++ "\": " ++ jsonDumps v
  | (k, v) :: rest =>
      "\"" ++ k ++ "\": " ++ jsonDumps v ++ ", " ++ jsonDumpsFields rest

end

/-- Embedding of `compute_receipt_id` (`receipts.py` lines 6-19): hash of the canonical
JSON of the base dict `{event_name, store_id, camera_id, ts, event_version}`,
with `store_id`/`camera_id` read from `payload.get("data", {})` and
`event_version` defaulting to `1`. The cryptographic digest
`hashlib.sha256(...).hexdigest()` is external code and enters as the
`hashHex` parameter. `json.dumps(..., sort_keys=True)` emits these five keys
in ascending order, so the base object lists them sorted:
`camera_id, event_name, event_version, store_id, ts`. -/
def compute_receipt_id (hashHex : String → String) (payload : JVal) : String :=
  let dataObj := payload.pyGetD "data" (.jobj [])
  let base : JVal := .jobj
    [ ("camera_id", dataObj.pyGet "camera_id")
    , ("event_name", payload.pyGet "event_name")
    , ("event_version", payload.pyGetD "event_version" (.jint 1))
    , ("store_id", dataObj.pyGet "store_id")
    , ("ts", payload.pyGet "ts") ]
  hashHex (jsonDumps base)

/-! ## Durable outbox (`src/storage/sqlite_queue.py`) -/

/-- One row of the `outbox` table. -/
structure OutboxRecord where
  row_id : Nat
  receipt_id : JVal
  payload_json : String
  attempts : Nat
  last_error : Option String
  created_at : ℚ
  next_attempt_at : ℚ

/-- The `outbox` table plus its autoincrement counter. -/
structure Outbox where
  records : List OutboxRecord := []
  next_row_id : Nat := 1

/-- Embedding of `SqliteQueue.enqueue` (`sqlite_queue.py` lines 46-70): read
`payload["receipt_id"]` (a missing key raises, caught, `False` returned),
then `INSERT OR IGNORE` keyed by the `UNIQUE` column `receipt_id`; a SQL
`NULL` receipt id is not deduplicated by a `UNIQUE` constraint. -/
def Outbox.enqueue (q : Outbox) (now : ℚ) (payload : JVal) : Outbox × Bool :=
  match payload.pyIndex "receipt_id" with
  | none => (q, false)
  | some rid =>
      if !rid.isNull && q.records.any (fun r => JVal.beq r.receipt_id rid) then
        (q, true)
      else
        ({ records := q.records ++
            [ { row_id := q.next_row_id
              , receipt_id := rid
              , payload_json := jsonDumps payload
              , attempts := 0
              , last_error := none
              , created_at := now
              , next_attempt_at := 0 } ]
          , next_row_id := q.next_row_id + 1 }, true)

/-- Embedding of `SqliteQueue.mark_failed` (`sqlite_queue.py` lines 106-117):
store the
truncated error, the given attempt count and `next_attempt_at = now + backoff`
on the matching row. -/
def Outbox.mark_failed (q : Outbox) (now : ℚ) (row_id : Nat) (error : String)
    (attempts : Nat) (backoff_seconds : Nat) : Outbox :=
  { q with
    records := q.records.map (fun r =>
      if r.row_id = row_id then
        { r with
          last_error := some (error.take 1000)
          attempts := attempts
          next_attempt_at := now + (backoff_seconds : ℚ) }
      else r) }

/-- The backoff of `ApiClient.flush_outbox` (`api_client.py` lines 75-76):
`min(300, 2 ** min(attempts, 8))`, applied to the post-increment attempt
count. -/
def backoff_for (attempts : Nat) : Nat :=
  min 300 (2 ^ min attempts 8)

/-- The failure branch of `flush_outbox` for one record
(`api_client.py` lines 74-84): increment the attempt count and mark the
record failed with the exponential backoff. -/
def flush_fail_step (q : Outbox) (now : ℚ) (row_id : Nat)
    (prior_attempts : Nat) (error : String) : Outbox :=
  let attempts := prior_attempts + 1
  q.mark_failed now row_id error attempts (backoff_for attempts)

/-! ## Auth failure tracking (`dalevision_edge_agent/cameras.py`) -/

/-- The `AUTH_FAILURE_STATUSES` set (`cameras.py` line 26). -/
def AUTH_FAILURE_STATUSES : List Nat := [401, 403]

/-- The `MAX_AUTH_FAILURES` threshold (`cameras.py` line 27). -/
def MAX_AUTH_FAILURES : Nat := 5

/-- The `AuthFailureTracker` class (`cameras.py` lines 30-44). -/
structure AuthFailureTracker where
  max_failures : Nat := MAX_AUTH_FAILURES
  consecutive : Nat := 0
  deriving DecidableEq

/-- Embedding of `AuthFailureTracker.register`: a 401/403 status increments the
consecutive counter and reports whether the threshold is reached; any other
non-`None` status resets the counter; a `None` status (no HTTP response)
leaves it unchanged. -/
def AuthFailureTracker.register (t : AuthFailureTracker)
    (status : Option Nat) : AuthFailureTracker × Bool :=
  match status with
  | some s =>
      if s ∈ AUTH_FAILURE_STATUSES then
        let t2 := { t with consecutive := t.consecutive + 1 }
        (t2, t2.consecutive ≥ t2.max_failures)
      else ({ t with consecutive := 0 }, false)
  | none => (t, false)

/-! ## Heartbeat sync loop (`dalevision_edge_agent/main.py`) -/

/-- The `MAX_CONSECUTIVE_AUTH_FAILURES` threshold (`main.py` line 27). -/
def MAX_CONSECUTIVE_AUTH_FAILURES : Nat := 5

/-- The `MAX_CONSECUTIVE_FAILURES` threshold (`main.py` line 28). -/
def MAX_CONSECUTIVE_FAILURES : Nat := 10

/-- The `EXIT_CONFIG_ERROR` exit code (`main.py` line 29), returned before
the loop starts when loading the settings fails. -/
def EXIT_CONFIG_ERROR : Nat := 2

/-- The `EXIT_AUTH_ERROR` exit code (`main.py` line 30). -/
def EXIT_AUTH_ERROR : Nat := 3

/-- The `EXIT_NETWORK_ERROR` exit code (`main.py` line 31). -/
def EXIT_NETWORK_ERROR : Nat := 4

/-- The `ok` flag `send_heartbeat` pairs with a status
(`heartbeat.py` lines 58-63): `200 <= status < 300`; a request exception
yields no status and `ok = False`. -/
def heartbeat_ok : Option Nat → Bool
  | some s => decide (200 ≤ s ∧ s < 300)
  | none => false

/-- The mutable counters of the heartbeat sync loop
(`main.py` lines 168-171). -/
structure HeartbeatLoopState where
  backoff_index : Nat := 0
  consecutive_failures : Nat := 0
  last_failure_status : Option Nat := none
  consecutive_auth_failures : Nat := 0
  deriving DecidableEq

/-- One iteration of the heartbeat-outcome handling of the sync loop in
`main` (`main.py` lines 312-384; the failure accounting is lines 327-373).
A 2xx outcome resets every counter and continues. A failure increments
`consecutive_failures` and records the status; a 401/403 status additionally
increments `consecutive_auth_failures` and, when it reaches
`MAX_CONSECUTIVE_AUTH_FAILURES`, returns `EXIT_AUTH_ERROR`; any other
received status resets the auth counter, and no status (no response) leaves
it unchanged. Reaching `MAX_CONSECUTIVE_FAILURES` then exits with
`EXIT_AUTH_ERROR`, `1` or `EXIT_NETWORK_ERROR` according to the last failing
status; otherwise the loop backs off and continues (first component `none`). -/
def heartbeat_step (st : HeartbeatLoopState) (status : Option Nat) :
    Option Nat × HeartbeatLoopState :=
  if heartbeat_ok status then
    (none,
     { backoff_index := 0
       consecutive_failures := 0
       last_failure_status := none
       consecutive_auth_failures := 0 })
  else
    let cf := st.consecutive_failures + 1
    let authRes : Option Nat × Nat :=
      match status with
      | some s =>
          if s ∈ AUTH_FAILURE_STATUSES then
            let a := st.consecutive_auth_failures + 1
            (if a ≥ MAX_CONSECUTIVE_AUTH_FAILURES then some EXIT_AUTH_ERROR
             else none, a)
          else (none, 0)
      | none => (none, st.consecutive_auth_failures)
    let st2 : HeartbeatLoopState :=
      { backoff_index := st.backoff_index
        consecutive_failures := cf
        last_failure_status := status
        consecutive_auth_failures := authRes.2 }
    match authRes.1 with
    | some code => (some code, st2)
    | none =>
        if cf ≥ MAX_CONSECUTIVE_FAILURES then
          (some (match status with
                 | some s =>
                     if s ∈ AUTH_FAILURE_STATUSES then EXIT_AUTH_ERROR else 1
                 | none => EXIT_NETWORK_ERROR), st2)
        else (none, { st2 with backoff_index := st.backoff_index + 1 })

/-- The heartbeat sync loop of `main` run over a list of heartbeat outcomes
(the status of each `send_heartbeat` call, `none` for no response): returns
the exit code of the first fatal iteration, `none` when the outcomes run out
with the loop still going. -/
def heartbeat_loop (st : HeartbeatLoopState) :
    List (Option Nat) → Option Nat
  | [] => none
  | status :: rest =>
      match heartbeat_step st status with
      | (some code, _) => some code
      | (none, st2) => heartbeat_loop st2 rest

/-! ## Supporting lemmas -/

/-- Pointwise equality of aggregator states as dictionaries. -/
def stateEquiv (s1 s2 : AggState) : Prop :=
  ∀ c, dictGet s1 c = dictGet s2 c

theorem add_sample_respects_equiv (w : Int) (s1 s2 : AggState) (cam : String)
    (ts : ℚ) (m : Metrics) (h : stateEquiv s1 s2) :
    stateEquiv (add_sample w s1 cam ts m) (add_sample w s2 cam ts m) := by
  intro c
  simp only [add_sample, h cam]
  rw [dictGet_dictSet, dictGet_dictSet]
  by_cases hc : cam = c
  · simp [hc]
  · simp [hc, h c]

theorem try_close_respects_equiv (w : Int) (s1 s2 : AggState) (cam : String)
    (ts : ℚ) (h : stateEquiv s1 s2) :
    (try_close_bucket w s1 cam ts).1 = (try_close_bucket w s2 cam ts).1 ∧
      stateEquiv (try_close_bucket w s1 cam ts).2 (try_close_bucket w s2 cam ts).2 := by
  simp only [try_close_bucket, h cam]
  cases hb : dictGet s2 cam with
  | none => exact ⟨by trivial, h⟩
  | some b =>
      by_cases hsame : bucket_start w ts = b.ts_bucket
      · simp only [hsame, if_pos rfl]
        exact ⟨by trivial, h⟩
      · simp only [if_neg hsame]
        refine ⟨by trivial, fun c => ?_⟩
        rw [dictGet_dictSet, dictGet_dictSet]
        by_cases hc : cam = c
        · simp [hc]
        · simp [hc, h c]

theorem runOps_respects_equiv (w : Int) (ops : List AggOp) :
    ∀ (s1 s2 : AggState), stateEquiv s1 s2 →
      (runOps w s1 ops).1 = (runOps w s2 ops).1 := by
  induction ops with
  | nil => intro s1 s2 _; rfl
  | cons op rest ih =>
      intro s1 s2 h
      cases op with
      | add c ts m =>
          simpa [runOps] using ih _ _ (add_sample_respects_equiv w s1 s2 c ts m h)
      | close c ts =>
          obtain ⟨hout, hst⟩ := try_close_respects_equiv w s1 s2 c ts h
          simp only [runOps]
          rw [show (try_close_bucket w s1 c ts) =
                ((try_close_bucket w s1 c ts).1, (try_close_bucket w s1 c ts).2) from rfl,
              show (try_close_bucket w s2 c ts) =
                ((try_close_bucket w s2 c ts).1, (try_close_bucket w s2 c ts).2) from rfl]
          simp only [hout]
          have := ih _ _ hst
          rw [show (runOps w (try_close_bucket w s1 c ts).2 rest) =
                ((runOps w (try_close_bucket w s1 c ts).2 rest).1,
                 (runOps w (try_close_bucket w s1 c ts).2 rest).2) from rfl,
              show (runOps w (try_close_bucket w s2 c ts).2 rest) =
                ((runOps w (try_close_bucket w s2 c ts).2 rest).1,
                 (runOps w (try_close_bucket w s2 c ts).2 rest).2) from rfl]
          simp [this]

theorem dictSet_keys_of_some {α : Type} (l : List (String × α)) (k : String)
    (v : α) (h : (dictGet l k).isSome) :
    (dictSet l k v).map Prod.fst = l.map Prod.fst := by
  induction l with
  | nil => simp [dictGet] at h
  | cons hd tl ih =>
      obtain ⟨k2, v2⟩ := hd
      by_cases h2 : k2 = k
      · simp [dictSet, h2]
      · simp only [dictGet, if_neg h2] at h
        simp [dictSet, h2, ih h]

/-! ## Claims about the metric bucket aggregator -/

/-- C1: evaluation of the code at the spec scenario. The pipeline
(`lifecycle.py` lines 299-305) calls `add_sample` and then probes
`try_close_bucket` at the same timestamp. With window 60 and timestamps
10, 20, 70, the add at `ts=70` replaces the open bucket — discarding both
earlier samples — and the probe at `ts=70` then returns nothing: no closed
bucket is ever produced, against the spec scenario that expects one closed
bucket averaging the first two samples. The final state holds one open
bucket for start 60 containing only the third sample. -/
theorem c1_pipeline_probe_after_add_loses_bucket :
    pipelineRun 60 [] "cam"
        [(10, [("queue_count", PyVal.pint 1)]),
         (20, [("queue_count", PyVal.pint 3)]),
         (70, [("queue_count", PyVal.pint 5)])] =
      ([], [("cam",
        { ts_bucket := 60, count := 1,
          sums := [("queue_count", 5)], maxs := [("queue_count", 5)] })]) := by
  decide

/-- C7 counterexample: a probe whose timestamp maps to an EARLIER bucket
start than that of the open bucket also closes and returns the bucket (the code
compares starts for inequality, not order), against the claim that every
case other than a later start returns nothing. -/
theorem c7_earlier_timestamp_also_closes :
    (try_close_bucket 60
        (add_sample 60 [] "cam" 70 [("people_count", PyVal.pint 2)])
        "cam" 10).1 =
      some { ts_bucket := 60, count := 1,
             metrics := [("people_count_avg", 2), ("people_count_max", 2)] } := by
  decide

/-- C7 (amended): `try_close_bucket` closes and returns the open bucket
exactly when the given timestamp maps to a DIFFERENT bucket start (earlier
or later); when the camera has no open bucket, or the timestamp maps to the
same start, it returns nothing and leaves the state unchanged. On closing it
re-opens a fresh bucket for the current start. -/
theorem try_close_bucket_characterization (w : Int) (s : AggState)
    (cam : String) (ts : ℚ) :
    (dictGet s cam = none → try_close_bucket w s cam ts = (none, s)) ∧
    (∀ b, dictGet s cam = some b → bucket_start w ts = b.ts_bucket →
        try_close_bucket w s cam ts = (none, s)) ∧
    (∀ b, dictGet s cam = some b → bucket_start w ts ≠ b.ts_bucket →
        try_close_bucket w s cam ts =
          (some (closeBucket b),
           dictSet s cam (emptyBucket (bucket_start w ts)))) := by
  refine ⟨fun h => ?_, fun b hb hsame => ?_, fun b hb hne => ?_⟩
  · simp [try_close_bucket, h]
  · simp [try_close_bucket, hb, hsame]
  · simp [try_close_bucket, hb, hne]

/-- Witness for `try_close_bucket_characterization` at a concrete state:
a probe in the same window returns nothing, a probe in a different window
closes the open bucket. -/
theorem try_close_bucket_characterization_witness :
    try_close_bucket 60
        [("cam", { ts_bucket := 0, count := 2,
                   sums := [("queue_count", 4)], maxs := [("queue_count", 3)] })]
        "cam" 20 =
      (none,
       [("cam", { ts_bucket := 0, count := 2,
                  sums := [("queue_count", 4)], maxs := [("queue_count", 3)] })]) ∧
    try_close_bucket 60
        [("cam", { ts_bucket := 0, count := 2,
                   sums := [("queue_count", 4)], maxs := [("queue_count", 3)] })]
        "cam" 70 =
      (some { ts_bucket := 0, count := 2,
              metrics := [("queue_count_avg", 2), ("queue_count_max", 3)] },
       dictSet
         [("cam", { ts_bucket := 0, count := 2,
                    sums := [("queue_count", 4)], maxs := [("queue_count", 3)] })]
         "cam" (emptyBucket (bucket_start 60 70))) := by
  constructor
  · exact (try_close_bucket_characterization 60
      [("cam", { ts_bucket := 0, count := 2,
                 sums := [("queue_count", 4)], maxs := [("queue_count", 3)] })]
      "cam" 20).2.1
      { ts_bucket := 0, count := 2,
        sums := [("queue_count", 4)], maxs := [("queue_count", 3)] }
      rfl (by decide)
  · exact (try_close_bucket_characterization 60
      [("cam", { ts_bucket := 0, count := 2,
                 sums := [("queue_count", 4)], maxs := [("queue_count", 3)] })]
      "cam" 70).2.2
      { ts_bucket := 0, count := 2,
        sums := [("queue_count", 4)], maxs := [("queue_count", 3)] }
      rfl (by decide) |>.trans (by decide)

/-- C10: an `add_sample` whose timestamp maps to a different bucket start
replaces the open bucket of the camera by a fresh one holding only the new
sample; afterwards the run of any further operations is indistinguishable
from one started with the old bucket erased, so the discarded data is never
returned by any later `try_close_bucket`; and the add keeps the bucket
keys of the dictionary duplicate-free (at most one bucket per camera). -/
theorem add_sample_discards_replaced_bucket (w : Int) (s : AggState)
    (cam : String) (b : Bucket) (ts : ℚ) (m : Metrics)
    (hb : dictGet s cam = some b)
    (hne : bucket_start w ts ≠ b.ts_bucket) :
    dictGet (add_sample w s cam ts m) cam =
      some (m.foldl aggregateField
        { emptyBucket (bucket_start w ts) with count := 1 }) ∧
    (∀ ops, (runOps w (add_sample w s cam ts m) ops).1 =
        (runOps w (add_sample w (dictErase s cam) cam ts m) ops).1) ∧
    ((s.map Prod.fst).Nodup →
      ((add_sample w s cam ts m).map Prod.fst).Nodup) := by
  have hbase : add_sample w s cam ts m =
      dictSet s cam (m.foldl aggregateField
        { emptyBucket (bucket_start w ts) with count := 1 }) := by
    simp [add_sample, hb, hne.symm, emptyBucket]
  refine ⟨?_, fun ops => ?_, fun hnd => ?_⟩
  · rw [hbase, dictGet_dictSet]
    simp
  · apply runOps_respects_equiv
    intro c
    have herased : add_sample w (dictErase s cam) cam ts m =
        dictSet (dictErase s cam) cam (m.foldl aggregateField
          { emptyBucket (bucket_start w ts) with count := 1 }) := by
      simp [add_sample, dictGet_dictErase, emptyBucket]
    rw [hbase, herased, dictGet_dictSet, dictGet_dictSet]
    by_cases hc : cam = c
    · simp [hc]
    · simp [hc, dictGet_dictErase]
  · rw [hbase, dictSet_keys_of_some]
    · exact hnd
    · simp [hb]

/-- Witness for `add_sample_discards_replaced_bucket`: a concrete state with
an open bucket for window start 0 and an add at `ts = 70`. -/
theorem add_sample_discards_replaced_bucket_witness :
    dictGet (add_sample 60
        [("cam", { ts_bucket := 0, count := 2,
                   sums := [("queue_count", 4)], maxs := [("queue_count", 3)] })]
        "cam" 70 [("queue_count", PyVal.pint 5)]) "cam" =
      some ([("queue_count", PyVal.pint 5)].foldl aggregateField
        { emptyBucket (bucket_start 60 70) with count := 1 }) ∧
    (runOps 60 (add_sample 60
        [("cam", { ts_bucket := 0, count := 2,
                   sums := [("queue_count", 4)], maxs := [("queue_count", 3)] })]
        "cam" 70 [("queue_count", PyVal.pint 5)]) [AggOp.close "cam" 130]).1 =
      (runOps 60 (add_sample 60
        (dictErase
          [("cam", { ts_bucket := 0, count := 2,
                     sums := [("queue_count", 4)], maxs := [("queue_count", 3)] })]
          "cam")
        "cam" 70 [("queue_count", PyVal.pint 5)]) [AggOp.close "cam" 130]).1 := by
  have h := add_sample_discards_replaced_bucket 60
    [("cam", { ts_bucket := 0, count := 2,
               sums := [("queue_count", 4)], maxs := [("queue_count", 3)] })]
    "cam" { ts_bucket := 0, count := 2,
            sums := [("queue_count", 4)], maxs := [("queue_count", 3)] }
    70 [("queue_count", PyVal.pint 5)] rfl (by decide)
  exact ⟨h.1, h.2.1 [AggOp.close "cam" 130]⟩

/-! ## Claim about the outbox backoff (C5) -/

/-- C5: a failed delivery applies exactly the backoff
`min(300, 2^min(attempts, 8))` seconds with `attempts` the post-increment
attempt count: attempt counts 1, 2, 3 yield deltas of 2, 4, 8 seconds,
`mark_failed` sets `next_attempt_at = now + backoff`, and for every attempt
count at least 8 the delta is the constant 256, within the 300-second cap. -/
theorem outbox_backoff_policy :
    (∀ a : Nat, backoff_for a = min 300 (2 ^ min a 8)) ∧
    backoff_for 1 = 2 ∧ backoff_for 2 = 4 ∧ backoff_for 3 = 8 ∧
    (∀ (q : Outbox) (now : ℚ) (rid prior : Nat) (err : String),
        (flush_fail_step q now rid prior err).records =
          q.records.map (fun r =>
            if r.row_id = rid then
              { r with
                last_error := some (err.take 1000)
                attempts := prior + 1
                next_attempt_at := now + (backoff_for (prior + 1) : ℚ) }
            else r)) ∧
    (∀ a : Nat, 8 ≤ a → backoff_for a = 256 ∧ backoff_for a ≤ 300) := by
  refine ⟨fun a => rfl, by decide, by decide, by decide,
    fun q now rid prior err => rfl, fun a ha => ?_⟩
  have hmin : min a 8 = 8 := min_eq_right ha
  constructor
  · simp [backoff_for, hmin]
  · simp [backoff_for, hmin]

/-- Witness for `outbox_backoff_policy` at attempt count 9. -/
theorem outbox_backoff_policy_witness :
    backoff_for 9 = 256 ∧ backoff_for 9 ≤ 300 :=
  outbox_backoff_policy.2.2.2.2.2 9 (by decide)

/-! ## Claim about auth-failure fatality (C9) -/

theorem heartbeat_step_auth_counts (st : HeartbeatLoopState) (s : Nat)
    (hmem : s ∈ AUTH_FAILURE_STATUSES)
    (hok : heartbeat_ok (some s) = false) :
    (heartbeat_step st (some s)).2.consecutive_auth_failures =
      st.consecutive_auth_failures + 1 := by
  simp only [heartbeat_step, hok, Bool.false_eq_true, if_false, hmem]
  by_cases hfatal : st.consecutive_auth_failures + 1 ≥
      MAX_CONSECUTIVE_AUTH_FAILURES
  · simp [hfatal]
  · by_cases hcf : st.consecutive_failures + 1 ≥ MAX_CONSECUTIVE_FAILURES
    · simp [hfatal, hcf]
    · simp [hfatal, hcf]

theorem heartbeat_step_auth_fatal (st : HeartbeatLoopState) (s : Nat)
    (hmem : s ∈ AUTH_FAILURE_STATUSES)
    (hok : heartbeat_ok (some s) = false)
    (hfatal : MAX_CONSECUTIVE_AUTH_FAILURES ≤
      st.consecutive_auth_failures + 1) :
    (heartbeat_step st (some s)).1 = some EXIT_AUTH_ERROR := by
  have hfatal2 : st.consecutive_auth_failures + 1 ≥
      MAX_CONSECUTIVE_AUTH_FAILURES := hfatal
  simp [heartbeat_step, hok, hmem, hfatal2]

theorem heartbeat_step_auth_continue (st : HeartbeatLoopState) (s : Nat)
    (hmem : s ∈ AUTH_FAILURE_STATUSES)
    (hok : heartbeat_ok (some s) = false)
    (hnot : st.consecutive_auth_failures + 1 <
      MAX_CONSECUTIVE_AUTH_FAILURES)
    (hcf : st.consecutive_failures + 1 < MAX_CONSECUTIVE_FAILURES) :
    heartbeat_step st (some s) =
      (none,
       { backoff_index := st.backoff_index + 1
         consecutive_failures := st.consecutive_failures + 1
         last_failure_status := some s
         consecutive_auth_failures := st.consecutive_auth_failures + 1 }) := by
  have hnot2 : ¬ st.consecutive_auth_failures + 1 ≥
      MAX_CONSECUTIVE_AUTH_FAILURES := by omega
  have hcf2 : ¬ st.consecutive_failures + 1 ≥ MAX_CONSECUTIVE_FAILURES := by
    omega
  simp [heartbeat_step, hok, hmem, hnot2, hcf2]

theorem heartbeat_auth_run (statuses : List (Option Nat)) :
    ∀ (rest : List (Option Nat)) (st : HeartbeatLoopState),
      (∀ x ∈ statuses, x = some 401 ∨ x = some 403) →
      0 < statuses.length →
      st.consecutive_auth_failures + statuses.length =
        MAX_CONSECUTIVE_AUTH_FAILURES →
      st.consecutive_failures + statuses.length ≤
        MAX_CONSECUTIVE_FAILURES →
      heartbeat_loop st (statuses ++ rest) = some EXIT_AUTH_ERROR := by
  induction statuses with
  | nil => intro rest st _ hpos _ _; simp at hpos
  | cons x tail ih =>
      intro rest st hall hpos hauth hcf
      have hx := hall x (by simp)
      obtain ⟨s, hs, hmem, hok⟩ : ∃ s : Nat, x = some s ∧
          s ∈ AUTH_FAILURE_STATUSES ∧ heartbeat_ok (some s) = false := by
        rcases hx with h4 | h4 <;>
          exact ⟨_, h4, by simp [AUTH_FAILURE_STATUSES], by decide⟩
      subst hs
      cases tail with
      | nil =>
          have hfatal : MAX_CONSECUTIVE_AUTH_FAILURES ≤
              st.consecutive_auth_failures + 1 := by
            simp at hauth; omega
          have h1 := heartbeat_step_auth_fatal st s hmem hok hfatal
          simp only [List.cons_append, heartbeat_loop]
          rw [show heartbeat_step st (some s) =
                ((heartbeat_step st (some s)).1,
                 (heartbeat_step st (some s)).2) from rfl, h1]
      | cons y tail2 =>
          have hnot : st.consecutive_auth_failures + 1 <
              MAX_CONSECUTIVE_AUTH_FAILURES := by
            simp [List.length] at hauth; omega
          have hcf2 : st.consecutive_failures + 1 <
              MAX_CONSECUTIVE_FAILURES := by
            simp [List.length] at hcf; omega
          have hstep := heartbeat_step_auth_continue st s hmem hok hnot hcf2
          simp only [List.cons_append, heartbeat_loop, hstep]
          apply ih rest
          · intro z hz; exact hall z (by simp [hz])
          · simp
          · simp [List.length] at hauth ⊢; omega
          · simp [List.length] at hcf ⊢; omega

/-- C9: in the heartbeat sync loop of `main`, the camera-sync collaborator
`AuthFailureTracker.register` and the inline heartbeat counter both
increment on every 401/403 response and reset on any other received status;
the inline counter reaching `MAX_CONSECUTIVE_AUTH_FAILURES = 5` makes the
loop return the auth-specific `EXIT_AUTH_ERROR = 3` at once, and five
consecutive 401/403 heartbeat outcomes from a fresh loop state terminate
the loop with that code, which differs from both exit codes (`1` and
`EXIT_NETWORK_ERROR = 4`) the generic consecutive-failure path uses for
non-auth failures. -/
theorem auth_failure_threshold_fatal :
    (∀ (t : AuthFailureTracker) (s : Nat), s = 401 ∨ s = 403 →
        (t.register (some s)).1.consecutive = t.consecutive + 1 ∧
        ((t.register (some s)).2 = true ↔
          t.max_failures ≤ t.consecutive + 1)) ∧
    (∀ (t : AuthFailureTracker) (s : Nat), ¬ (s = 401 ∨ s = 403) →
        (t.register (some s)).1.consecutive = 0 ∧
        (t.register (some s)).2 = false) ∧
    (∀ (st : HeartbeatLoopState) (s : Nat), s = 401 ∨ s = 403 →
        (heartbeat_step st (some s)).2.consecutive_auth_failures =
          st.consecutive_auth_failures + 1 ∧
        (MAX_CONSECUTIVE_AUTH_FAILURES ≤ st.consecutive_auth_failures + 1 →
          (heartbeat_step st (some s)).1 = some EXIT_AUTH_ERROR)) ∧
    (∀ (st : HeartbeatLoopState) (s : Nat), ¬ (s = 401 ∨ s = 403) →
        (heartbeat_step st (some s)).2.consecutive_auth_failures = 0) ∧
    (∀ (statuses rest : List (Option Nat)),
        (∀ x ∈ statuses, x = some 401 ∨ x = some 403) →
        statuses.length = MAX_CONSECUTIVE_AUTH_FAILURES →
        heartbeat_loop {} (statuses ++ rest) = some EXIT_AUTH_ERROR) ∧
    (EXIT_AUTH_ERROR = 3 ∧ EXIT_AUTH_ERROR ≠ 1 ∧
      EXIT_AUTH_ERROR ≠ EXIT_NETWORK_ERROR) := by
  refine ⟨fun t s hs => ?_, fun t s hs => ?_, fun st s hs => ?_,
    fun st s hs => ?_, fun statuses rest hall hlen => ?_, by decide⟩
  · have hmem : s ∈ AUTH_FAILURE_STATUSES := by
      rcases hs with h | h <;> simp [AUTH_FAILURE_STATUSES, h]
    constructor
    · simp [AuthFailureTracker.register, hmem]
    · simp [AuthFailureTracker.register, hmem]
  · have hmem : s ∉ AUTH_FAILURE_STATUSES := by
      simp [AUTH_FAILURE_STATUSES]
      omega
    simp [AuthFailureTracker.register, hmem]
  · obtain ⟨hmem, hok⟩ : s ∈ AUTH_FAILURE_STATUSES ∧
        heartbeat_ok (some s) = false := by
      rcases hs with h | h <;> subst h <;>
        exact ⟨by simp [AUTH_FAILURE_STATUSES], by decide⟩
    exact ⟨heartbeat_step_auth_counts st s hmem hok,
      heartbeat_step_auth_fatal st s hmem hok⟩
  · have hmem : s ∉ AUTH_FAILURE_STATUSES := by
      simp [AUTH_FAILURE_STATUSES]
      omega
    by_cases hok : heartbeat_ok (some s) = true
    · simp [heartbeat_step, hok]
    · have hok2 : heartbeat_ok (some s) = false := by
        simpa using hok
      simp only [heartbeat_step, hok2, Bool.false_eq_true, if_false, hmem]
      by_cases hcf : st.consecutive_failures + 1 ≥ MAX_CONSECUTIVE_FAILURES
      · simp [hcf, hmem]
      · simp [hcf, hmem]
  · apply heartbeat_auth_run statuses rest {} hall
    · simp [hlen, MAX_CONSECUTIVE_AUTH_FAILURES]
    · simp [hlen]
    · simp [hlen, MAX_CONSECUTIVE_AUTH_FAILURES, MAX_CONSECUTIVE_FAILURES]

/-- Witness for `auth_failure_threshold_fatal`: five straight 401 heartbeat
responses terminate the loop with exit code 3 even when more outcomes
follow. -/
theorem auth_failure_threshold_fatal_witness :
    heartbeat_loop {}
        ([some 401, some 401, some 401, some 401, some 401] ++ [some 200]) =
      some EXIT_AUTH_ERROR :=
  auth_failure_threshold_fatal.2.2.2.2.1
    [some 401, some 401, some 401, some 401, some 401] [some 200]
    (by decide) (by decide)

/-! ## Claim about receipt-id idempotency (C2) -/

theorem compute_receipt_id_congr (hashHex : String → String) (p1 p2 : JVal)
    (hen : p1.pyGet "event_name" = p2.pyGet "event_name")
    (hsid : (p1.pyGetD "data" (.jobj [])).pyGet "store_id" =
      (p2.pyGetD "data" (.jobj [])).pyGet "store_id")
    (hcam : (p1.pyGetD "data" (.jobj [])).pyGet "camera_id" =
      (p2.pyGetD "data" (.jobj [])).pyGet "camera_id")
    (hts : p1.pyGet "ts" = p2.pyGet "ts")
    (hver : p1.pyGetD "event_version" (.jint 1) =
      p2.pyGetD "event_version" (.jint 1)) :
    compute_receipt_id hashHex p1 = compute_receipt_id hashHex p2 := by
  simp only [compute_receipt_id]
  rw [hen, hsid, hcam, hts, hver]

/-- The envelope fields of a metric-bucket event whose `data.extra`
distinguishes two otherwise identical envelopes. -/
def envFields (extra : String) : List (String × JVal) :=
  [ ("event_name", .jstr "edge_metric_bucket")
  , ("event_version", .jint 1)
  , ("ts", .jstr "2026-01-01T00:00:00Z")
  , ("data", .jobj
      [ ("store_id", .jstr "store-1")
      , ("camera_id", .jstr "cam-1")
      , ("extra", .jstr extra) ]) ]

/-- C2: two envelopes agreeing on `event_name`, `data.store_id`,
`data.camera_id`, `ts` and `event_version` get the identical receipt id from
`compute_receipt_id`, whatever else `data` holds; and stamping each with its
receipt id (as the pipeline does) and enqueueing both into the empty durable
outbox leaves exactly one stored record with that receipt id. -/
theorem receipt_id_idempotency :
    (∀ (hashHex : String → String) (p1 p2 : JVal),
        p1.pyGet "event_name" = p2.pyGet "event_name" →
        (p1.pyGetD "data" (.jobj [])).pyGet "store_id" =
          (p2.pyGetD "data" (.jobj [])).pyGet "store_id" →
        (p1.pyGetD "data" (.jobj [])).pyGet "camera_id" =
          (p2.pyGetD "data" (.jobj [])).pyGet "camera_id" →
        p1.pyGet "ts" = p2.pyGet "ts" →
        p1.pyGetD "event_version" (.jint 1) =
          p2.pyGetD "event_version" (.jint 1) →
        compute_receipt_id hashHex p1 = compute_receipt_id hashHex p2) ∧
    (∀ (hashHex : String → String) (f1 f2 : List (String × JVal)) (now1 now2 : ℚ),
        (JVal.jobj f1).pyGet "event_name" = (JVal.jobj f2).pyGet "event_name" →
        ((JVal.jobj f1).pyGetD "data" (.jobj [])).pyGet "store_id" =
          ((JVal.jobj f2).pyGetD "data" (.jobj [])).pyGet "store_id" →
        ((JVal.jobj f1).pyGetD "data" (.jobj [])).pyGet "camera_id" =
          ((JVal.jobj f2).pyGetD "data" (.jobj [])).pyGet "camera_id" →
        (JVal.jobj f1).pyGet "ts" = (JVal.jobj f2).pyGet "ts" →
        (JVal.jobj f1).pyGetD "event_version" (.jint 1) =
          (JVal.jobj f2).pyGetD "event_version" (.jint 1) →
        ((Outbox.enqueue
            (Outbox.enqueue {} now1
              ((JVal.jobj f1).pySet "receipt_id"
                (.jstr (compute_receipt_id hashHex (.jobj f1))))).1
            now2
            ((JVal.jobj f2).pySet "receipt_id"
              (.jstr (compute_receipt_id hashHex (.jobj f2))))).1.records.countP
          (fun r => JVal.beq r.receipt_id
            (.jstr (compute_receipt_id hashHex (.jobj f1)))) = 1 ∧
        (Outbox.enqueue
            (Outbox.enqueue {} now1
              ((JVal.jobj f1).pySet "receipt_id"
                (.jstr (compute_receipt_id hashHex (.jobj f1))))).1
            now2
            ((JVal.jobj f2).pySet "receipt_id"
              (.jstr (compute_receipt_id hashHex (.jobj f2))))).1.records.length = 1)) := by
  constructor
  · exact fun hashHex p1 p2 => compute_receipt_id_congr hashHex p1 p2
  · intro hashHex f1 f2 now1 now2 hen hsid hcam hts hver
    have hr : compute_receipt_id hashHex (.jobj f2) =
        compute_receipt_id hashHex (.jobj f1) :=
      (compute_receipt_id_congr hashHex _ _ hen hsid hcam hts hver).symm
    rw [hr]
    set r := compute_receipt_id hashHex (.jobj f1) with hrdef
    have hidx1 : ((JVal.jobj f1).pySet "receipt_id" (.jstr r)).pyIndex
        "receipt_id" = some (.jstr r) := by
      simp [JVal.pySet, JVal.pyIndex, dictGet_dictSet]
    have hidx2 : ((JVal.jobj f2).pySet "receipt_id" (.jstr r)).pyIndex
        "receipt_id" = some (.jstr r) := by
      simp [JVal.pySet, JVal.pyIndex, dictGet_dictSet]
    have hq1 : Outbox.enqueue {} now1
        ((JVal.jobj f1).pySet "receipt_id" (.jstr r)) =
        ({ records :=
            [ { row_id := 1
              , receipt_id := .jstr r
              , payload_json :=
                  jsonDumps ((JVal.jobj f1).pySet "receipt_id" (.jstr r))
              , attempts := 0
              , last_error := none
              , created_at := now1
              , next_attempt_at := 0 } ]
          , next_row_id := 2 }, true) := by
      simp [Outbox.enqueue, hidx1]
    have hq2 : (Outbox.enqueue
        (Outbox.enqueue {} now1
          ((JVal.jobj f1).pySet "receipt_id" (.jstr r))).1
        now2
        ((JVal.jobj f2).pySet "receipt_id" (.jstr r))).1.records =
        [ { row_id := 1
          , receipt_id := .jstr r
          , payload_json :=
              jsonDumps ((JVal.jobj f1).pySet "receipt_id" (.jstr r))
          , attempts := 0
          , last_error := none
          , created_at := now1
          , next_attempt_at := 0 } ] := by
      rw [hq1]
      simp [Outbox.enqueue, hidx2, JVal.isNull, JVal.beq_refl]
    rw [hq2]
    simp [JVal.beq_refl]

/-- Witness for `receipt_id_idempotency`: two concrete envelopes differing
only in `data.extra`, enqueued into the empty outbox. -/
theorem receipt_id_idempotency_witness :
    ((Outbox.enqueue
        (Outbox.enqueue {} 0
          ((JVal.jobj (envFields "a")).pySet "receipt_id"
            (.jstr (compute_receipt_id (fun h => h) (.jobj (envFields "a")))))).1
        0
        ((JVal.jobj (envFields "b")).pySet "receipt_id"
          (.jstr (compute_receipt_id (fun h => h)
            (.jobj (envFields "b")))))).1.records.countP
      (fun r => JVal.beq r.receipt_id
        (.jstr (compute_receipt_id (fun h => h) (.jobj (envFields "a"))))) = 1 ∧
    (Outbox.enqueue
        (Outbox.enqueue {} 0
          ((JVal.jobj (envFields "a")).pySet "receipt_id"
            (.jstr (compute_receipt_id (fun h => h) (.jobj (envFields "a")))))).1
        0
        ((JVal.jobj (envFields "b")).pySet "receipt_id"
          (.jstr (compute_receipt_id (fun h => h)
            (.jobj (envFields "b")))))).1.records.length = 1) :=
  receipt_id_idempotency.2 (fun h => h) (envFields "a") (envFields "b") 0 0
    rfl rfl rfl rfl rfl

/-! ## Claim about boxless detections (C8) -/

theorem processDet_unusable (w : Worker) (role : String) (ts : ℚ)
    (acc : FrameAcc) (d : Detection) (h : usableBox d.xyxy = false) :
    processDet w role ts acc d = acc := by
  rcases hd : d.xyxy with _ | l
  · simp [processDet, hd]
  · rcases l with _ | ⟨a, _ | ⟨b, _ | ⟨c, _ | ⟨e, _ | ⟨f, rest⟩⟩⟩⟩⟩
    · simp [processDet, hd]
    · simp [processDet, hd]
    · simp [processDet, hd]
    · simp [processDet, hd]
    · rw [hd] at h; simp [usableBox] at h
    · simp [processDet, hd]

theorem foldl_processDet_filter (w : Worker) (role : String) (ts : ℚ) :
    ∀ (dets : List Detection) (acc : FrameAcc),
      (dets.filter (fun d => usableBox d.xyxy)).foldl (processDet w role ts) acc =
        dets.foldl (processDet w role ts) acc := by
  intro dets
  induction dets with
  | nil => intro acc; rfl
  | cons d rest ih =>
      intro acc
      by_cases hd : usableBox d.xyxy = true
      · simp [List.filter_cons, hd, ih]
      · have hd2 : usableBox d.xyxy = false := by simpa using hd
        simp [List.filter_cons, hd2, ih,
          processDet_unusable w role ts acc d hd2]

/-- C8 counterexample: `people_count` is `len(detections)` including
detections without a usable box, so removing a boxless detection changes the
returned snapshot. -/
theorem c8_people_count_counts_boxless :
    (update_metrics {} {} [{ xyxy := none }] 0).1.people_count = 1 ∧
    (update_metrics {} {} [] 0).1.people_count = 0 := by
  decide

/-- C8 (amended): `update_metrics` is total, and every snapshot field except
`people_count` — and the whole resulting state — is unchanged when the
detections without a usable box are removed from the input; `people_count`
alone counts all detections, boxless ones included. -/
theorem boxless_detections_skipped_except_people_count (w : Worker)
    (st : RoiState) (dets : List Detection) (ts : ℚ) :
    (update_metrics w st (dets.filter (fun d => usableBox d.xyxy)) ts).2 =
      (update_metrics w st dets ts).2 ∧
    (update_metrics w st (dets.filter (fun d => usableBox d.xyxy)) ts).1 =
      { (update_metrics w st dets ts).1 with
        people_count := (dets.filter (fun d => usableBox d.xyxy)).length } ∧
    (update_metrics w st dets ts).1.people_count = dets.length := by
  have hfold := foldl_processDet_filter w (infer_role w) ts dets
    { tls := st.track_line_side_state, tll := st.track_line_last_event }
  refine ⟨?_, ?_, rfl⟩
  · simp only [update_metrics, hfold]
  · simp only [update_metrics, hfold]

/-! ## Claim about payment-over-queue priority (C6) -/

/-- The payment/staff zone rectangle used by the concrete scenarios. -/
def payRect : List (Int × Int) := [(0, 0), (100, 0), (100, 100), (0, 100)]

/-- A queue zone overlapping the payment zone in `x`, lower in the frame. -/
def queueRect : List (Int × Int) := [(0, 80), (100, 80), (100, 200), (0, 200)]

/-- A counter camera with a payment zone and a queue zone
(`exclude_pay_from_queue` keeps its default `true`). -/
def balcaoWorker : Worker :=
  { zones := [("ponto_pagamento", payRect), ("area_atendimento_fila", queueRect)] }

/-- A detection whose center lies in the payment zone and whose foot point
lies outside the queue zone. -/
def detPay : Detection := { xyxy := some [40, 40, 60, 60] }

/-- A detection whose center lies in the payment zone and whose foot point
lies inside the queue zone. -/
def detBoth : Detection := { xyxy := some [40, 60, 60, 120] }

theorem processDet_in_pay_skips_queue (w : Worker) (ts : ℚ) (acc : FrameAcc)
    (d : Detection) (payPoly : List (Int × Int)) (x1 y1 x2 y2 : ℚ)
    (hex : w.exclude_pay_from_queue = true)
    (hpayz : dictGet w.zones "ponto_pagamento" = some payPoly)
    (hbox : d.xyxy = some [x1, y1, x2, y2])
    (hpay : point_in_polygon ((x1 + x2) / 2) ((y1 + y2) / 2) payPoly = true) :
    (processDet w "balcao" ts acc d).queue_count = acc.queue_count ∧
    (processDet w "balcao" ts acc d).pay_count = acc.pay_count + 1 := by
  simp only [processDet, hbox]
  simp only [hpayz, hpay]
  rcases hstaff : dictGet w.zones "zona_funcionario_caixa" with _ | spoly
  · rcases hqz : dictGet w.zones "area_atendimento_fila" with _ | qpoly
    · simp [hstaff, hqz]
    · by_cases hq : point_in_polygon ((x1 + x2) / 2) y2 qpoly = true
      · simp [hstaff, hqz, hq, hex]
      · simp [hstaff, hqz, hq, hex]
  · by_cases hsp : point_in_polygon ((x1 + x2) / 2) ((y1 + y2) / 2) spoly = true
    all_goals
      rcases hqz : dictGet w.zones "area_atendimento_fila" with _ | qpoly
    · simp [hstaff, hsp, hqz]
    · by_cases hq : point_in_polygon ((x1 + x2) / 2) y2 qpoly = true
      · simp [hstaff, hsp, hqz, hq, hex]
      · simp [hstaff, hsp, hqz, hq, hex]
    · simp [hstaff, hsp, hqz]
    · by_cases hq : point_in_polygon ((x1 + x2) / 2) y2 qpoly = true
      · simp [hstaff, hsp, hqz, hq, hex]
      · simp [hstaff, hsp, hqz, hq, hex]

theorem update_metrics_counts (w : Worker) (st : RoiState)
    (dets : List Detection) (ts : ℚ) :
    (update_metrics w st dets ts).1.queue_count =
      (dets.foldl (processDet w (infer_role w) ts)
        { tls := st.track_line_side_state
          tll := st.track_line_last_event }).queue_count ∧
    (update_metrics w st dets ts).1.pay_count =
      (dets.foldl (processDet w (infer_role w) ts)
        { tls := st.track_line_side_state
          tll := st.track_line_last_event }).pay_count := by
  constructor <;> rfl

/-- C6: feeding the counter camera five detections inside the payment zone
only, plus one inside both the payment and the queue zone, yields
`pay_count = 6` and `queue_count = 0`; and in general, with
`excludePayFromQueue` true, appending one detection whose center is inside
the payment zone (wherever its foot point is) adds one to `pay_count` and
nothing to `queue_count` — a detection inside both zones counts only toward
payment, never toward queue. -/
theorem payment_priority_over_queue :
    ((update_metrics balcaoWorker {}
        [detPay, detPay, detPay, detPay, detPay, detBoth] 0).1.pay_count = 6 ∧
     (update_metrics balcaoWorker {}
        [detPay, detPay, detPay, detPay, detPay, detBoth] 0).1.queue_count = 0) ∧
    (∀ (w : Worker) (st : RoiState) (dets : List Detection) (d : Detection)
        (ts : ℚ) (payPoly queuePoly : List (Int × Int)) (x1 y1 x2 y2 : ℚ),
        infer_role w = "balcao" →
        w.exclude_pay_from_queue = true →
        dictGet w.zones "ponto_pagamento" = some payPoly →
        dictGet w.zones "area_atendimento_fila" = some queuePoly →
        d.xyxy = some [x1, y1, x2, y2] →
        point_in_polygon ((x1 + x2) / 2) ((y1 + y2) / 2) payPoly = true →
        point_in_polygon ((x1 + x2) / 2) y2 queuePoly = true →
        (update_metrics w st (dets ++ [d]) ts).1.queue_count =
          (update_metrics w st dets ts).1.queue_count ∧
        (update_metrics w st (dets ++ [d]) ts).1.pay_count =
          (update_metrics w st dets ts).1.pay_count + 1) := by
  constructor
  · constructor <;> decide
  · intro w st dets d ts payPoly queuePoly x1 y1 x2 y2 hrole hex hpayz hqz
      hbox hpay hqin
    have hstep := processDet_in_pay_skips_queue w ts
      (dets.foldl (processDet w (infer_role w) ts)
        { tls := st.track_line_side_state
          tll := st.track_line_last_event })
      d payPoly x1 y1 x2 y2 hex hpayz hbox hpay
    rw [hrole] at hstep
    have h1 := update_metrics_counts w st (dets ++ [d]) ts
    have h2 := update_metrics_counts w st dets ts
    rw [h1.1, h1.2, h2.1, h2.2, List.foldl_append, hrole] at *
    simp only [List.foldl_cons, List.foldl_nil]
    rw [hrole] at hstep ⊢
    exact hstep

/-- Witness for `payment_priority_over_queue`: appending the
inside-both-zones detection to the empty frame of the concrete counter
camera adds to `pay_count` only. -/
theorem payment_priority_over_queue_witness :
    (update_metrics balcaoWorker {} ([] ++ [detBoth]) 0).1.queue_count =
      (update_metrics balcaoWorker {} [] 0).1.queue_count ∧
    (update_metrics balcaoWorker {} ([] ++ [detBoth]) 0).1.pay_count =
      (update_metrics balcaoWorker {} [] 0).1.pay_count + 1 :=
  payment_priority_over_queue.2 balcaoWorker {} [] detBoth 0 payRect queueRect
    40 60 60 120 (by decide) rfl rfl rfl rfl (by decide) (by decide)

/-! ## Claim about line crossings (C4) -/

/-- An entry camera with one line from `(0,0)` to `(0,1)`: the side of a
point `(px, py)` is `-px`, so `px = 1` gives side `-1` and `px = -1` gives
side `+1`. Cooldown keeps its default 4 seconds. -/
def entradaWorker : Worker := { roiLines := [("linha", ((0, 0), (0, 1)))] }

/-- A tracked detection whose foot point has abscissa `px`. -/
def detAt (px : ℚ) (tid : Int) : Detection :=
  { xyxy := some [px - 1, 0, px + 1, 50], track_id := some tid }

/-- Side sequence `[-1, -1, +1, +1, -1]` with 10-second gaps (at least the
4-second cooldown). -/
def sidesSpacedFrames : List (List Detection × ℚ) :=
  [([detAt 1 7], 0), ([detAt 1 7], 10), ([detAt (-1) 7], 20),
   ([detAt (-1) 7], 30), ([detAt 1 7], 40)]

/-- The same side sequence with 1-second gaps: the entry fires at `ts = 2`
and the exit transition happens at `ts = 4`, within the 4-second cooldown of
the entry. -/
def sidesQuickFrames : List (List Detection × ℚ) :=
  [([detAt 1 7], 0), ([detAt 1 7], 1), ([detAt (-1) 7], 2),
   ([detAt (-1) 7], 3), ([detAt 1 7], 4)]

/-- Side sequence `[-1, +1, -1, +1]` with 1-second gaps: the second entry
transition falls within the cooldown of the first. -/
def sidesAlternatingFrames : List (List Detection × ℚ) :=
  [([detAt 1 7], 0), ([detAt (-1) 7], 1), ([detAt 1 7], 2),
   ([detAt (-1) 7], 3)]

/-- C4 counterexample: in the quick run the entry fires at `ts = 2` and the
exit transition at `ts = 4` — less than `lineCooldownSeconds = 4` later —
yet the exit is recorded too (cooldowns are tracked separately per event
type), against the claim that only the first of the two is recorded. -/
theorem c4_exit_fires_within_cooldown_of_entry :
    ((runFrames entradaWorker {} sidesQuickFrames).1.map
      (fun s => s.exits)).sum = 1 := by
  decide

/-- C4 (amended): the side sequence `[-1, -1, +1, +1, -1]` yields exactly one
entry (at the `-1` to `+1` transition) and one exit (at the `+1` to `-1`
transition); the cooldown applies per `(event type, line, track)`, so an exit
within `lineCooldownSeconds` of an entry still fires, and only a repeated
event of the same type on the same line for the same track within the
cooldown is suppressed. -/
theorem line_crossing_cooldown_per_type :
    ((runFrames entradaWorker {} sidesSpacedFrames).1.map
      (fun s => s.entries)) = [0, 0, 1, 0, 0] ∧
    ((runFrames entradaWorker {} sidesSpacedFrames).1.map
      (fun s => s.exits)) = [0, 0, 0, 0, 1] ∧
    ((runFrames entradaWorker {} sidesQuickFrames).1.map
      (fun s => (s.entries, s.exits))) =
      [(0, 0), (0, 0), (1, 0), (0, 0), (0, 1)] ∧
    ((runFrames entradaWorker {} sidesAlternatingFrames).1.map
      (fun s => (s.entries, s.exits))) =
      [(0, 0), (1, 0), (0, 1), (0, 0)] := by
  refine ⟨by decide, by decide, by decide, by decide⟩

/-! ## Claim about the checkout cycle (C3) -/

/-- A counter camera whose payment and staff zones are the same rectangle,
so one centered detection makes `interactionNow` true.
`checkout_dwell_seconds` keeps its default 2 and
`checkout_failsafe_seconds` its default 4. -/
def checkoutWorker : Worker :=
  { zones := [("ponto_pagamento", payRect),
              ("zona_funcionario_caixa", payRect)] }

/-- Twenty-six frames at 0.1-second intervals covering 2.5 seconds of continuous
staff/client co-presence. -/
def checkoutFrames : List (List Detection × ℚ) :=
  (List.range 26).map (fun k => ([detPay], (k : ℚ) / 10))

theorem checkoutStep_stays_in_cycle (dwell failsafe : ℚ) (st : RoiState)
    (ts : ℚ) (h : st.in_checkout_cycle = true) :
    (checkoutStep dwell failsafe st true ts).1 = 0 ∧
    (checkoutStep dwell failsafe st true ts).2.in_checkout_cycle = true := by
  simp only [checkoutStep]
  by_cases hf : failsafe > 0 ∧ ts - st.last_checkout_ts < failsafe
  · simp [hf, h]
  · simp [hf, h]

theorem processDet_checkout (ts : ℚ) (acc : FrameAcc) :
    processDet checkoutWorker "balcao" ts acc detPay =
      { acc with
        clients_at_pay := acc.clients_at_pay + 1
        pay_count := acc.pay_count + 1
        staff_at_cashier := acc.staff_at_cashier + 1
        staff_count := acc.staff_count + 1 } := by
  have hz1 : dictGet checkoutWorker.zones "ponto_pagamento" = some payRect :=
    rfl
  have hz2 : dictGet checkoutWorker.zones "zona_funcionario_caixa" =
      some payRect := rfl
  have hz3 : dictGet checkoutWorker.zones "area_atendimento_fila" = none :=
    rfl
  have hpip : point_in_polygon ((40 + 60) / 2 : ℚ) ((40 + 60) / 2 : ℚ)
      payRect = true := by decide
  simp only [processDet, detPay]
  simp only [hz1, hz2, hz3, hpip]
  simp

theorem update_metrics_stays_in_cycle (st : RoiState) (ts : ℚ)
    (h : st.in_checkout_cycle = true) :
    (update_metrics checkoutWorker st [detPay] ts).1.checkout_events = 0 ∧
    (update_metrics checkoutWorker st [detPay] ts).2.in_checkout_cycle =
      true := by
  have hacc := processDet_checkout ts
    { tls := st.track_line_side_state, tll := st.track_line_last_event }
  have hrole : infer_role checkoutWorker = "balcao" := rfl
  simp only [update_metrics, List.foldl_cons, List.foldl_nil, hrole, hacc]
  norm_num
  exact checkoutStep_stays_in_cycle 2 4 _ ts (by simpa using h)

theorem runFrames_in_cycle_no_events (tss : List ℚ) :
    ∀ st : RoiState, st.in_checkout_cycle = true →
      ((runFrames checkoutWorker st
          (tss.map (fun t => ([detPay], t)))).1.map
        (fun s => s.checkout_events)).sum = 0 := by
  induction tss with
  | nil => intro st _; rfl
  | cons t rest ih =>
      intro st h
      obtain ⟨h0, h1⟩ := update_metrics_stays_in_cycle st t h
      simp only [List.map_cons, runFrames, List.sum_cons, h0]
      simpa using ih _ h1

/-- C3: with `dwellSeconds = 2`, a staff/client pair continuously present for
2.5 seconds at 0.1-second frame intervals produces exactly one frame with
`checkout_events = 1`; and however long the pair then stays continuously
present (any further frames, any timestamps), no second checkout event is
ever emitted — rearming requires `interactionNow` to drop first. -/
theorem checkout_cycle_single_event :
    (runFrames checkoutWorker {} checkoutFrames).1.countP
      (fun s => s.checkout_events = 1) = 1 ∧
    ((runFrames checkoutWorker {} checkoutFrames).1.map
      (fun s => s.checkout_events)).sum = 1 ∧
    (∀ tss : List ℚ,
        ((runFrames checkoutWorker (runFrames checkoutWorker {} checkoutFrames).2
            (tss.map (fun t => ([detPay], t)))).1.map
          (fun s => s.checkout_events)).sum = 0) := by
  refine ⟨by decide, by decide, fun tss => ?_⟩
  exact runFrames_in_cycle_no_events tss _ (by decide)

end EdgeAgent
